import Mathlib

/-!
Verification of `scripts/create-test-user.py`.

The script issues a single HTTP POST to a registration endpoint with a
hardcoded JSON payload, branches on the response status code, and prints
human-readable lines to the console.  We embed the script shallowly:

* `Json` models the Python values produced by `json.loads` on the JSON
  subset the script's contract exercises (objects, arrays, strings with
  the common escapes, integers, booleans, null).
* `parseJson` models `json.loads` / `response.json()` on that subset.
* `pyRepr` / `pyStr` model Python's `repr` / `str` of such values; `print`
  and f-string interpolation use `str`, which coincides with `repr` except
  on a top-level string, rendered unquoted.
* `HttpResult` is the environment's answer to the single `requests.post`
  call: either a response (status code and body text) or a raised
  transport-level exception carrying a message.
* `scriptRun` is the whole script: it returns the list of requests issued,
  the ordered list of print events (`Line`), and the process exit code.
-/

/-- A JSON value as loaded by Python's `json` module (integer numbers only;
the script's contract involves no floats). -/
inductive Json where
  | null : Json
  | bool (b : Bool) : Json
  | num (n : Int) : Json
  | str (s : String) : Json
  | arr (elems : List Json) : Json
  | obj (fields : List (String × Json)) : Json
deriving Repr

/-- Whitespace as skipped by the JSON grammar. -/
def isJsonWs (c : Char) : Bool :=
  c = ' ' || c = '\t' || c = '\n' || c = '\r'

/-- Drop leading JSON whitespace. -/
def skipWs : List Char → List Char
  | [] => []
  | c :: cs => if isJsonWs c then skipWs cs else c :: cs

/-- Decode one string-literal escape character (the common JSON escapes). -/
def decodeEscape (e : Char) : Option Char :=
  if e = '"' then some '"'
  else if e = '\\' then some '\\'
  else if e = '/' then some '/'
  else if e = 'n' then some '\n'
  else if e = 't' then some '\t'
  else if e = 'r' then some '\r'
  else if e = 'b' then some (Char.ofNat 8)
  else if e = 'f' then some (Char.ofNat 12)
  else none

/-- Parse the body of a JSON string literal (the opening quote already
consumed), returning the decoded characters and the rest of the input. -/
def parseStrChars : List Char → Option (List Char × List Char)
  | [] => none
  | '"' :: rest => some ([], rest)
  | '\\' :: rest =>
    match rest with
    | [] => none
    | e :: rest' =>
      match decodeEscape e with
      | some c => (parseStrChars rest').map (fun p => (c :: p.1, p.2))
      | none => none
  | c :: rest => (parseStrChars rest).map (fun p => (c :: p.1, p.2))

/-- Parse a run of decimal digits into a natural number, given the digits
already read (most significant first) as accumulator. -/
def parseDigits : Nat → List Char → Nat × List Char
  | acc, c :: cs =>
    if c.isDigit then parseDigits (acc * 10 + (c.toNat - 48)) cs
    else (acc, c :: cs)
  | acc, [] => (acc, [])

/-- Parse a JSON integer (optional leading minus). -/
def parseIntLit : List Char → Option (Int × List Char)
  | '-' :: c :: cs =>
    if c.isDigit then
      let p := parseDigits 0 (c :: cs)
      some (-(p.1 : Int), p.2)
    else none
  | c :: cs =>
    if c.isDigit then
      let p := parseDigits 0 (c :: cs)
      some ((p.1 : Int), p.2)
    else none
  | [] => none

/-- Insert a key/value pair into an object's field list, replacing the value
in place when the key is already present: Python's `dict` keeps the first
position and the last value for duplicate keys. -/
def insertField : List (String × Json) → String → Json → List (String × Json)
  | [], k, v => [(k, v)]
  | (k', v') :: rest, k, v =>
    if k' = k then (k', v) :: rest else (k', v') :: insertField rest k v

mutual

/-- Parse one JSON value; `fuel` bounds the recursion depth (any fuel of at
least the input length suffices, since every step consumes a character). -/
def parseValue : Nat → List Char → Option (Json × List Char)
  | 0, _ => none
  | fuel + 1, cs =>
    match skipWs cs with
    | [] => none
    | 'n' :: 'u' :: 'l' :: 'l' :: rest => some (.null, rest)
    | 't' :: 'r' :: 'u' :: 'e' :: rest => some (.bool true, rest)
    | 'f' :: 'a' :: 'l' :: 's' :: 'e' :: rest => some (.bool false, rest)
    | '"' :: rest => (parseStrChars rest).map (fun p => (.str ⟨p.1⟩, p.2))
    | '[' :: rest =>
      match skipWs rest with
      | ']' :: r2 => some (.arr [], r2)
      | r2 =>
        match parseValue fuel r2 with
        | none => none
        | some (v, r3) => parseElems fuel [v] r3
    | '\x7b' :: rest =>
      match skipWs rest with
      | '\x7d' :: r2 => some (.obj [], r2)
      | r2 => parseMembers fuel [] r2
    | c :: rest =>
      match parseIntLit (c :: rest) with
      | some (n, r2) => some (.num n, r2)
      | none => none

/-- Parse the remaining elements of an array after the first value
(accumulator holds the values read so far, in reverse). -/
def parseElems : Nat → List Json → List Char → Option (Json × List Char)
  | 0, _, _ => none
  | fuel + 1, acc, cs =>
    match skipWs cs with
    | ']' :: rest => some (.arr acc.reverse, rest)
    | ',' :: rest =>
      match parseValue fuel rest with
      | none => none
      | some (v, r2) => parseElems fuel (v :: acc) r2
    | _ => none

/-- Parse the members of an object (accumulator holds the fields read so
far); expects a `"key": value` pair at the head of the input. -/
def parseMembers : Nat → List (String × Json) → List Char → Option (Json × List Char)
  | 0, _, _ => none
  | fuel + 1, acc, cs =>
    match skipWs cs with
    | '"' :: rest =>
      match parseStrChars rest with
      | none => none
      | some (kchars, r2) =>
        match skipWs r2 with
        | ':' :: r3 =>
          match parseValue fuel r3 with
          | none => none
          | some (v, r4) =>
            let acc' := insertField acc ⟨kchars⟩ v
            match skipWs r4 with
            | '\x7d' :: r5 => some (.obj acc', r5)
            | ',' :: r5 => parseMembers fuel acc' r5
            | _ => none
        | _ => none
    | _ => none

end

/-- `json.loads` on the modelled subset: parse a complete JSON document,
requiring only whitespace after the value.  On failure the error string is
the exception's message (the exact wording of CPython's `json` messages is
not part of this repository's contract). -/
def parseJson (s : String) : Except String Json :=
  match parseValue (s.length + 1) s.data with
  | none => .error "Expecting value: line 1 column 1 (char 0)"
  | some (j, rest) =>
    if skipWs rest = [] then .ok j
    else .error "Extra data"

/-- Python `repr` of a string: single quotes, switching to double quotes
when the string contains a single quote but no double quote; the quote in
use, backslashes and the common control characters are escaped. -/
def pyReprStr (s : String) : String :=
  let useDouble := s.data.contains '\'' && !(s.data.contains '"')
  let q : Char := if useDouble then '"' else '\''
  let esc : Char → List Char := fun c =>
    if c = '\\' then ['\\', '\\']
    else if c = q then ['\\', q]
    else if c = '\n' then ['\\', 'n']
    else if c = '\t' then ['\\', 't']
    else if c = '\r' then ['\\', 'r']
    else [c]
  ⟨q :: (s.data.flatMap esc) ++ [q]⟩

mutual

/-- Python `repr` of a loaded JSON value (`None`, `True`, dicts with
`': '`/`', '` separators, strings in quotes). -/
def pyRepr : Json → String
  | .null => "None"
  | .bool true => "True"
  | .bool false => "False"
  | .num n => toString n
  | .str s => pyReprStr s
  | .arr xs => "[" ++ pyReprElems xs ++ "]"
  | .obj fs => "\x7b" ++ pyReprFields fs ++ "\x7d"

/-- Comma-separated `repr`s of a list's elements. -/
def pyReprElems : List Json → String
  | [] => ""
  | [x] => pyRepr x
  | x :: y :: rest => pyRepr x ++ ", " ++ pyReprElems (y :: rest)

/-- Comma-separated `'key': value` renderings of a dict's fields. -/
def pyReprFields : List (String × Json) → String
  | [] => ""
  | [kv] => pyReprStr kv.1 ++ ": " ++ pyRepr kv.2
  | kv :: kv' :: rest => pyReprStr kv.1 ++ ": " ++ pyRepr kv.2 ++ ", " ++ pyReprFields (kv' :: rest)

end

/-- Python `str` of a loaded JSON value, as used by `print` and by f-string
interpolation: identical to `repr` except on a top-level string, which
renders without quotes (`str` of a dict or list is its `repr`). -/
def pyStr : Json → String
  | .str s => s
  | j => pyRepr j

/-- First value stored under a key (parsed objects have unique keys). -/
def lookupField : List (String × Json) → String → Option Json
  | [], _ => none
  | (k', v) :: rest, k => if k' = k then some v else lookupField rest k

/-- Python subscription `j[key]` with a string key: returns the value, or
the message of the `KeyError` / `TypeError` the interpreter raises
(`str` of a `KeyError` is the `repr` of the missing key). -/
def getItem (j : Json) (key : String) : Except String Json :=
  match j with
  | .obj fields =>
    match lookupField fields key with
    | some v => .ok v
    | none => .error (pyReprStr key)
  | .arr _ => .error "list indices must be integers or slices, not str"
  | .str _ => .error "string indices must be integers"
  | .num _ => .error "'int' object is not subscriptable"
  | .bool _ => .error "'bool' object is not subscriptable"
  | .null => .error "'NoneType' object is not subscriptable"

/-- The environment's answer to the one `requests.post` call: an HTTP
response (status code and body text), or a raised transport-level
exception carrying a message. -/
inductive HttpResult where
  | response (status : Nat) (body : String) : HttpResult
  | fault (msg : String) : HttpResult

/-- An HTTP POST request as the script builds it: target URL and JSON
payload (serialisation of the payload to bytes is the HTTP library's
concern, not the script's). -/
structure Request where
  url : String
  body : Json

/-- `BASE_URL = "http://localhost:1341"`. -/
def BASE_URL : String := "http://localhost:1341"

/-- The hardcoded `register_data` payload. -/
def register_data : Json :=
  .obj [("username", .str "testsysadmin"),
        ("email", .str "testsysadmin@test.com"),
        ("password", .str "TestAdmin123!")]

/-- The single request the script issues:
`requests.post(f"{BASE_URL}/api/auth/local/register", json=register_data)`. -/
def registerRequest : Request :=
  { url := BASE_URL ++ "/api/auth/local/register", body := register_data }

/-- One console print event; `render` gives the exact text printed. -/
inductive Line where
  | step1 : Line
  | userCreated (uid : Json) : Line
  | jwtToken (tok : Json) : Line
  | roleNote : Line
  | dbHint : Line
  | updateStmt (uid : Json) : Line
  | regFailed (status : Nat) : Line
  | jsonDump (j : Json) : Line
  | errorMsg (msg : String) : Line

/-- The exact text each print statement of the script emits. -/
def render : Line → String
  | .step1 => "Step 1: Registering test user..."
  | .userCreated uid => "✅ User created with ID: " ++ pyStr uid
  | .jwtToken tok => "📝 JWT Token: " ++ pyStr tok
  | .roleNote => "\n⚠️  Note: User role is 'reguser' by default"
  | .dbHint => "To make this user a sysadmin, update the database:"
  | .updateStmt uid => "UPDATE up_users SET userRole='sysadmin' WHERE id=" ++ pyStr uid ++ ";"
  | .regFailed status => "❌ Registration failed: " ++ toString status
  | .jsonDump j => pyStr j
  | .errorMsg msg => "❌ Error: " ++ msg

/-- The success-path extraction, in the script's evaluation order:
`data = response.json()`, `user_id = data['user']['id']`,
`token = data['jwt']`.  Returns `(user_id, token)` or the message of the
first exception raised. -/
def extractSuccess (body : String) : Except String (Json × Json) :=
  match parseJson body with
  | .error m => .error m
  | .ok data =>
    match getItem data "user" with
    | .error m => .error m
    | .ok user =>
      match getItem user "id" with
      | .error m => .error m
      | .ok user_id =>
        match getItem data "jwt" with
        | .error m => .error m
        | .ok token => .ok (user_id, token)

/-- The body of the `try` block after the `requests.post` call: the print
events it performs, and the message of the exception it raises, if any. -/
def tryBlock (r : HttpResult) : List Line × Option String :=
  match r with
  | .fault msg => ([], some msg)
  | .response status body =>
    if status = 200 then
      match extractSuccess body with
      | .error msg => ([], some msg)
      | .ok (user_id, token) =>
        ([.userCreated user_id, .jwtToken token, .roleNote, .dbHint, .updateStmt user_id], none)
    else
      match parseJson body with
      | .error msg => ([.regFailed status], some msg)
      | .ok j => ([.regFailed status, .jsonDump j], none)

/-- Result of one run of the script: the requests issued, the ordered
print events, and the process exit code. -/
structure RunResult where
  requests : List Request
  output : List Line
  exitCode : Nat

/-- One run of the whole script against the environment's answer `r`:
print the step-1 line, issue the single POST, run the `try` body, and on
an exception print `❌ Error: {e}`; the process then exits normally. -/
def scriptRun (r : HttpResult) : RunResult :=
  let res := tryBlock r
  { requests := [registerRequest]
    exitCode := 0
    output :=
      Line.step1 :: res.1 ++
        (match res.2 with
         | some m => [Line.errorMsg m]
         | none => []) }

/-- The console text of a run, line by line. -/
def consoleOf (r : HttpResult) : List String :=
  (scriptRun r).output.map render

/-- Recogniser for the `✅ User created with ID: …` print. -/
def isUserCreated : Line → Bool
  | .userCreated _ => true
  | _ => false

/-- Recogniser for the `📝 JWT Token: …` print. -/
def isJwtToken : Line → Bool
  | .jwtToken _ => true
  | _ => false

/-- Recogniser for the `UPDATE up_users …` reminder print. -/
def isUpdateStmt : Line → Bool
  | .updateStmt _ => true
  | _ => false

/-- Recogniser for the `❌ Error: …` print of the `except` handler. -/
def isErrorMsg : Line → Bool
  | .errorMsg _ => true
  | _ => false

/-! ## Claims -/

/-- C1: For the default invocation, the script issues its HTTP POST to
`{base_url}/api/auth/local/register` with base URL `http://localhost:1341`,
and the JSON body sent is exactly
`{"username":"testsysadmin","email":"testsysadmin@test.com","password":"TestAdmin123!"}`
(the payload parses to precisely the object the script sends). -/
theorem c1_default_request :
    (∀ r : HttpResult, (scriptRun r).requests = [registerRequest]) ∧
    registerRequest.url = "http://localhost:1341/api/auth/local/register" ∧
    parseJson "\x7b\"username\":\"testsysadmin\",\"email\":\"testsysadmin@test.com\",\"password\":\"TestAdmin123!\"\x7d"
      = Except.ok registerRequest.body :=
  ⟨fun _ => rfl, rfl, rfl⟩

/-- C2: Whenever the service answers HTTP 200 with a body on which the
success-path extraction yields an identifier and a token, the script prints
the identifier line and the token line exactly once each, and prints the
reminder interpolating that same identifier into
`UPDATE up_users SET userRole='sysadmin' WHERE id={user_id};`. -/
theorem c2_success_prints (body : String) (uid tok : Json)
    (h : extractSuccess body = Except.ok (uid, tok)) :
    consoleOf (HttpResult.response 200 body) =
      ["Step 1: Registering test user...",
       "✅ User created with ID: " ++ pyStr uid,
       "📝 JWT Token: " ++ pyStr tok,
       "\n⚠️  Note: User role is 'reguser' by default",
       "To make this user a sysadmin, update the database:",
       "UPDATE up_users SET userRole='sysadmin' WHERE id=" ++ pyStr uid ++ ";"] ∧
    (scriptRun (HttpResult.response 200 body)).output.countP isUserCreated = 1 ∧
    (scriptRun (HttpResult.response 200 body)).output.countP isJwtToken = 1 ∧
    (scriptRun (HttpResult.response 200 body)).output.countP isUpdateStmt = 1 := by
  have hout : (scriptRun (HttpResult.response 200 body)).output =
      [Line.step1, Line.userCreated uid, Line.jwtToken tok, Line.roleNote,
       Line.dbHint, Line.updateStmt uid] := by
    simp [scriptRun, tryBlock, h]
  refine ⟨?_, ?_, ?_, ?_⟩ <;> simp [consoleOf, hout, render, isUserCreated, isJwtToken, isUpdateStmt, List.countP_cons]

/-- Witness for C2 at the concrete 200-response body
`{"user": {"id": 1}, "jwt": "abc"}`. -/
theorem c2_success_prints_witness :
    consoleOf (HttpResult.response 200 "\x7b\"user\": \x7b\"id\": 1\x7d, \"jwt\": \"abc\"\x7d") =
      ["Step 1: Registering test user...",
       "✅ User created with ID: " ++ pyStr (Json.num 1),
       "📝 JWT Token: " ++ pyStr (Json.str "abc"),
       "\n⚠️  Note: User role is 'reguser' by default",
       "To make this user a sysadmin, update the database:",
       "UPDATE up_users SET userRole='sysadmin' WHERE id=" ++ pyStr (Json.num 1) ++ ";"] ∧
    (scriptRun (HttpResult.response 200 "\x7b\"user\": \x7b\"id\": 1\x7d, \"jwt\": \"abc\"\x7d")).output.countP isUserCreated = 1 ∧
    (scriptRun (HttpResult.response 200 "\x7b\"user\": \x7b\"id\": 1\x7d, \"jwt\": \"abc\"\x7d")).output.countP isJwtToken = 1 ∧
    (scriptRun (HttpResult.response 200 "\x7b\"user\": \x7b\"id\": 1\x7d, \"jwt\": \"abc\"\x7d")).output.countP isUpdateStmt = 1 :=
  c2_success_prints _ (Json.num 1) (Json.str "abc") rfl

/-- C3: On a 200 response whose body parses to exactly the shape
`{ "user": { "id": <identifier> }, "jwt": <token> }`, the printed
identifier is the `id` field of the nested `user` object and the printed
token is the top-level `jwt` field. -/
theorem c3_response_shape (body : String) (idv tokv : Json)
    (h : parseJson body =
      Except.ok (Json.obj [("user", Json.obj [("id", idv)]), ("jwt", tokv)])) :
    (scriptRun (HttpResult.response 200 body)).output =
      [Line.step1, Line.userCreated idv, Line.jwtToken tokv, Line.roleNote,
       Line.dbHint, Line.updateStmt idv] := by
  simp [scriptRun, tryBlock, extractSuccess, h, getItem, lookupField]

/-- Witness for C3 at the concrete body `{"user": {"id": 7}, "jwt": "t"}`. -/
theorem c3_response_shape_witness :
    (scriptRun (HttpResult.response 200 "\x7b\"user\": \x7b\"id\": 7\x7d, \"jwt\": \"t\"\x7d")).output =
      [Line.step1, Line.userCreated (Json.num 7), Line.jwtToken (Json.str "t"),
       Line.roleNote, Line.dbHint, Line.updateStmt (Json.num 7)] :=
  c3_response_shape _ (Json.num 7) (Json.str "t") rfl

/-- C4 fails as stated: on status 400 with body `{"a": 1}`, the script
prints the Python `str` of the parsed dict — its `repr`, `{'a': 1}` — and
the raw response body text `{"a": 1}` appears nowhere in the console
output. -/
theorem c4_counterexample :
    consoleOf (HttpResult.response 400 "\x7b\"a\": 1\x7d") =
      ["Step 1: Registering test user...", "❌ Registration failed: 400", "\x7b'a': 1\x7d"] ∧
    "\x7b\"a\": 1\x7d" ∉ consoleOf (HttpResult.response 400 "\x7b\"a\": 1\x7d") := by
  have h : consoleOf (HttpResult.response 400 "\x7b\"a\": 1\x7d") =
      ["Step 1: Registering test user...", "❌ Registration failed: 400", "\x7b'a': 1\x7d"] := rfl
  exact ⟨h, by rw [h]; decide⟩

/-- C4 amended: for every response whose status is not 200 and whose body
parses as JSON, the script prints the status-code line and then the parsed
JSON value rendered by Python `str` — equal to its `repr` for a dict or
list and to the unquoted text for a top-level string, never the raw body
text — and prints no access token. -/
theorem c4_non200_prints (status : Nat) (body : String) (j : Json)
    (hs : status ≠ 200) (hp : parseJson body = Except.ok j) :
    (scriptRun (HttpResult.response status body)).output =
      [Line.step1, Line.regFailed status, Line.jsonDump j] ∧
    consoleOf (HttpResult.response status body) =
      ["Step 1: Registering test user...",
       "❌ Registration failed: " ++ toString status, pyStr j] ∧
    (scriptRun (HttpResult.response status body)).output.countP isJwtToken = 0 := by
  have hout : (scriptRun (HttpResult.response status body)).output =
      [Line.step1, Line.regFailed status, Line.jsonDump j] := by
    simp [scriptRun, tryBlock, hs, hp]
  refine ⟨hout, ?_, ?_⟩ <;> simp [consoleOf, hout, render, isJwtToken, List.countP_cons]

/-- Witness for the amended C4 at status 400 and the top-level-string body
`"hello"`, the case where Python `str` and `repr` differ: the console line
is the unquoted `hello`. -/
theorem c4_non200_prints_witness :
    (scriptRun (HttpResult.response 400 "\"hello\"")).output =
      [Line.step1, Line.regFailed 400, Line.jsonDump (Json.str "hello")] ∧
    consoleOf (HttpResult.response 400 "\"hello\"") =
      ["Step 1: Registering test user...",
       "❌ Registration failed: " ++ toString 400, pyStr (Json.str "hello")] ∧
    (scriptRun (HttpResult.response 400 "\"hello\"")).output.countP isJwtToken = 0 :=
  c4_non200_prints 400 _ (Json.str "hello") (by decide) rfl

/-- C5: every transport-level fault raised by the request is caught; the
script prints exactly the step line and one error line whose text contains
the fault's message, and `scriptRun` being total, it reaches its normal
result rather than propagating the exception. -/
theorem c5_fault_caught (msg : String) :
    (scriptRun (HttpResult.fault msg)).output = [Line.step1, Line.errorMsg msg] ∧
    consoleOf (HttpResult.fault msg) =
      ["Step 1: Registering test user...", "❌ Error: " ++ msg] :=
  ⟨rfl, rfl⟩

/-- C6: every outcome of the request — success, non-200 status, or caught
exception — reaches a normal exit with exit code 0. -/
theorem c6_exit_zero (r : HttpResult) : (scriptRun r).exitCode = 0 := rfl

/-- C7: in every run exactly one HTTP POST is issued, and the run's whole
result consists of that request list, the console output and the exit
code — no other state. -/
theorem c7_single_request (r : HttpResult) :
    (scriptRun r).requests.length = 1 ∧
    (scriptRun r).requests = [registerRequest] :=
  ⟨rfl, rfl⟩

/-- C8: the request payload and URL are fixed constants independent of the
environment's answer, and two runs receiving the identical response (or
identical exception) produce identical console output. -/
theorem c8_deterministic :
    registerRequest.body = register_data ∧
    registerRequest.url = BASE_URL ++ "/api/auth/local/register" ∧
    (∀ r₁ r₂ : HttpResult, r₁ = r₂ → (scriptRun r₁).requests = (scriptRun r₂).requests) ∧
    (∀ r₁ r₂ : HttpResult, r₁ = r₂ → consoleOf r₁ = consoleOf r₂) :=
  ⟨rfl, rfl, fun _ _ h => by rw [h], fun _ _ h => by rw [h]⟩

/-- Witness for C8: two runs on the same concrete response yield the same
console output. -/
theorem c8_deterministic_witness :
    consoleOf (HttpResult.response 200 "\x7b\x7d") = consoleOf (HttpResult.response 200 "\x7b\x7d") :=
  c8_deterministic.2.2.2 (HttpResult.response 200 "\x7b\x7d") (HttpResult.response 200 "\x7b\x7d") rfl

/-- C9: on a 200 response whose body fails the success-path extraction
(invalid JSON, or a missing `user`, `id` or `jwt` key), the script prints
exactly one error message and no identifier, token or update reminder. -/
theorem c9_malformed_success_body (body msg : String)
    (h : extractSuccess body = Except.error msg) :
    (scriptRun (HttpResult.response 200 body)).output = [Line.step1, Line.errorMsg msg] ∧
    (scriptRun (HttpResult.response 200 body)).output.countP isErrorMsg = 1 ∧
    (scriptRun (HttpResult.response 200 body)).output.countP isUserCreated = 0 ∧
    (scriptRun (HttpResult.response 200 body)).output.countP isJwtToken = 0 ∧
    (scriptRun (HttpResult.response 200 body)).output.countP isUpdateStmt = 0 := by
  have hout : (scriptRun (HttpResult.response 200 body)).output =
      [Line.step1, Line.errorMsg msg] := by
    simp [scriptRun, tryBlock, h]
  refine ⟨hout, ?_, ?_, ?_, ?_⟩ <;>
    simp [hout, isErrorMsg, isUserCreated, isJwtToken, isUpdateStmt, List.countP_cons]

/-- Witness for C9 at the 200-response body `{}` (lacking the `user` key):
the one error line carries the `KeyError` message. -/
theorem c9_malformed_success_body_witness :
    (scriptRun (HttpResult.response 200 "\x7b\x7d")).output = [Line.step1, Line.errorMsg "'user'"] ∧
    (scriptRun (HttpResult.response 200 "\x7b\x7d")).output.countP isErrorMsg = 1 ∧
    (scriptRun (HttpResult.response 200 "\x7b\x7d")).output.countP isUserCreated = 0 ∧
    (scriptRun (HttpResult.response 200 "\x7b\x7d")).output.countP isJwtToken = 0 ∧
    (scriptRun (HttpResult.response 200 "\x7b\x7d")).output.countP isUpdateStmt = 0 :=
  c9_malformed_success_body _ "'user'" rfl

/-- C10: on a non-200 response whose body is not valid JSON, the script
prints the status-code line first and then an error message derived from
the JSON-decoding exception; every printed line is one of the step line,
the status line or that error line, so the raw body is never printed. -/
theorem c10_non200_invalid_json (status : Nat) (body msg : String)
    (hs : status ≠ 200) (hp : parseJson body = Except.error msg) :
    (scriptRun (HttpResult.response status body)).output =
      [Line.step1, Line.regFailed status, Line.errorMsg msg] ∧
    ∀ l ∈ (scriptRun (HttpResult.response status body)).output,
      l = Line.step1 ∨ l = Line.regFailed status ∨ l = Line.errorMsg msg := by
  have hout : (scriptRun (HttpResult.response status body)).output =
      [Line.step1, Line.regFailed status, Line.errorMsg msg] := by
    simp [scriptRun, tryBlock, hs, hp]
  refine ⟨hout, ?_⟩
  rw [hout]
  intro l hl
  simp only [List.mem_cons, List.mem_singleton, List.not_mem_nil, or_false] at hl
  tauto

/-- Witness for C10 at status 500 and the non-JSON body `oops`. -/
theorem c10_non200_invalid_json_witness :
    (scriptRun (HttpResult.response 500 "oops")).output =
      [Line.step1, Line.regFailed 500,
       Line.errorMsg "Expecting value: line 1 column 1 (char 0)"] ∧
    ∀ l ∈ (scriptRun (HttpResult.response 500 "oops")).output,
      l = Line.step1 ∨ l = Line.regFailed 500 ∨
        l = Line.errorMsg "Expecting value: line 1 column 1 (char 0)" :=
  c10_non200_invalid_json 500 "oops" _ (by decide) rfl
